import Mathlib

/-!
Verification of the media-upload backend (`Backend/server.js`).

The development shallowly embeds the server's pure helpers
(`sanitizeFilename`, `createMovieFolderName`, multer's filename callback)
and its stateful upload pipeline (`POST /upload`) over an explicit
filesystem/catalog state.  Strings are modelled by Lean `String`
(equivalently their `List Char` of code points); machine timestamps
(`Date.now()`) are passed in as `Nat` parameters since they are inputs of
the pipeline, not computed by it.
-/

/-! ### Filename sanitizer (server.js lines 27-31)

`sanitizeFilename` replaces every character outside `[a-zA-Z0-9_.-]` with
an underscore and then collapses every run of underscores to a single one.
-/

/-- Membership in the character whitelist `[a-zA-Z0-9_.-]` of the regex on
line 29 of server.js. -/
def keepChar (c : Char) : Bool :=
  c.isAlpha || c.isDigit || c == '_' || c == '.' || c == '-'

/-- Model of `.replace(/[^a-zA-Z0-9_.-]/g, '_')`: every character outside
the whitelist becomes an underscore. -/
def replaceInvalid (l : List Char) : List Char :=
  l.map (fun c => if keepChar c then c else '_')

/-- Model of `.replace(/_+/g, '_')`: every maximal run of underscores is
collapsed to a single underscore (the recursion drops an underscore that
is immediately followed by another one, keeping the last of each run). -/
def collapseUnderscores : List Char → List Char
  | [] => []
  | [c] => [c]
  | c₁ :: c₂ :: rest =>
    if c₁ == '_' && c₂ == '_' then collapseUnderscores (c₂ :: rest)
    else c₁ :: collapseUnderscores (c₂ :: rest)

/-- Model of `sanitizeFilename` (server.js lines 27-31). -/
def sanitizeFilename (s : String) : String :=
  ⟨collapseUnderscores (replaceInvalid s.data)⟩

lemma keepChar_underscore : keepChar '_' = true := by decide

lemma replaceInvalid_all_keep (l : List Char) :
    ∀ c ∈ replaceInvalid l, keepChar c = true := by
  intro c hc
  rcases List.mem_map.mp hc with ⟨a, _, ha⟩
  by_cases h : keepChar a = true
  · rw [if_pos h] at ha
    rw [← ha]
    exact h
  · rw [if_neg h] at ha
    rw [← ha]
    exact keepChar_underscore

lemma collapseUnderscores_subset :
    ∀ l : List Char, ∀ c ∈ collapseUnderscores l, c ∈ l
  | [] => by intro c hc; simp [collapseUnderscores] at hc
  | [a] => by intro c hc; simp [collapseUnderscores] at hc; simp [hc]
  | a :: b :: rest => by
    intro c hc
    cases h : (a == '_' && b == '_') with
    | true =>
      simp only [collapseUnderscores, h, if_true] at hc
      exact List.mem_cons_of_mem a (collapseUnderscores_subset (b :: rest) c hc)
    | false =>
      simp only [collapseUnderscores, h] at hc
      rw [if_neg (by simp)] at hc
      rcases List.mem_cons.mp hc with h1 | h2
      · exact h1 ▸ List.mem_cons_self a (b :: rest)
      · exact List.mem_cons_of_mem a (collapseUnderscores_subset (b :: rest) c h2)

lemma collapseUnderscores_cons_head :
    ∀ (rest : List Char) (c : Char), ∃ t,
      collapseUnderscores (c :: rest) = (if c = '_' then '_' else c) :: t
  | [], c => ⟨[], by by_cases h : c = '_' <;> simp [collapseUnderscores, h]⟩
  | b :: rest, c => by
    cases hcb : (c == '_' && b == '_') with
    | true =>
      have hc : c = '_' := eq_of_beq ((Bool.and_eq_true _ _).mp hcb).1
      have hb : b = '_' := eq_of_beq ((Bool.and_eq_true _ _).mp hcb).2
      subst hc; subst hb
      rcases collapseUnderscores_cons_head rest '_' with ⟨t, ht⟩
      refine ⟨t, ?_⟩
      rw [show collapseUnderscores ('_' :: '_' :: rest) =
            collapseUnderscores ('_' :: rest) from by simp [collapseUnderscores]]
      rw [ht]
    | false =>
      refine ⟨collapseUnderscores (b :: rest), ?_⟩
      rw [show collapseUnderscores (c :: b :: rest) =
            c :: collapseUnderscores (b :: rest) from by
          simp only [collapseUnderscores, hcb]
          rw [if_neg (by simp)]]
      by_cases hc : c = '_'
      · subst hc; simp
      · simp [hc]

/-- The double-underscore-freedom predicate: adjacent characters are never
both underscores. -/
def NoAdjUnderscore (l : List Char) : Prop :=
  List.Chain' (fun a b => ¬(a = '_' ∧ b = '_')) l

lemma collapseUnderscores_chain :
    ∀ l : List Char, NoAdjUnderscore (collapseUnderscores l)
  | [] => by simp [NoAdjUnderscore, collapseUnderscores]
  | [a] => by simp [NoAdjUnderscore, collapseUnderscores]
  | a :: b :: rest => by
    cases h : (a == '_' && b == '_') with
    | true =>
      simpa [NoAdjUnderscore, collapseUnderscores, h] using
        collapseUnderscores_chain (b :: rest)
    | false =>
      have ih := collapseUnderscores_chain (b :: rest)
      rcases collapseUnderscores_cons_head rest b with ⟨t, ht⟩
      rw [show collapseUnderscores (a :: b :: rest) =
            a :: collapseUnderscores (b :: rest) from by
          simp only [collapseUnderscores, h]
          rw [if_neg (by simp)]]
      rw [NoAdjUnderscore, ht, List.chain'_cons]
      constructor
      · rintro ⟨ha, hb⟩
        subst ha
        by_cases hb' : b = '_'
        · subst hb'; simp at h
        · simp [hb'] at hb
      · rw [NoAdjUnderscore, ht] at ih
        exact ih

lemma sanitize_all_keep (s : String) :
    ∀ c ∈ (sanitizeFilename s).data, keepChar c = true := by
  intro c hc
  exact replaceInvalid_all_keep s.data c
    (collapseUnderscores_subset (replaceInvalid s.data) c hc)

lemma sanitize_noAdj (s : String) : NoAdjUnderscore (sanitizeFilename s).data :=
  collapseUnderscores_chain (replaceInvalid s.data)

lemma noAdj_not_substring {l : List Char} (h : NoAdjUnderscore l) :
    ¬ (['_', '_'] <:+: l) := by
  rintro ⟨s, t, hst⟩
  rw [NoAdjUnderscore, ← hst, List.append_assoc] at h
  have h2 := (List.chain'_append.mp h).2.1
  rw [List.cons_append, List.cons_append, List.nil_append] at h2
  exact (List.chain'_cons.mp h2).1 ⟨rfl, rfl⟩

/-- C4: for every input string, the sanitizer's output contains only
characters in `[A-Za-z0-9_.-]` and has no `__` substring.  Determinism and
totality hold because `sanitizeFilename` is a Lean function. -/
theorem C4_sanitizer_whitelist_and_no_double_underscore (s : String) :
    (∀ c ∈ (sanitizeFilename s).data, keepChar c = true) ∧
      ¬ (['_', '_'] <:+: (sanitizeFilename s).data) :=
  ⟨sanitize_all_keep s, noAdj_not_substring (sanitize_noAdj s)⟩

example : sanitizeFilename "My Movie! (2024)" = "My_Movie_2024_" := by decide
example : sanitizeFilename "a__b" = "a_b" := by decide

/-! ### Storage naming (server.js lines 33-38, 52-61)

`createMovieFolderName` builds the per-item directory name; multer's
`filename` callback builds stored filenames.  `Date.now()` is a parameter.
-/

/-- JS `String.prototype.slice(0, n)`: the first `n` characters. -/
def strTake (s : String) (n : Nat) : String := ⟨s.data.take n⟩

/-- Model of `createMovieFolderName` (server.js lines 34-38): sanitize the
title, THEN cap the result at 30 characters, prefixed by the timestamp
(the source is `sanitizeFilename(title).slice(0, 30)`). -/
def createMovieFolderName (timestamp : Nat) (title : String) : String :=
  (Nat.repr timestamp ++ "-") ++ strTake (sanitizeFilename title) 30

/-- The directory-name derivation in the order claim C3 words it: first
cap the title to 30 characters, then sanitize.  Stated only to compare
with `createMovieFolderName`, the source's order of operations. -/
def specFolderNameCapFirst (timestamp : Nat) (title : String) : String :=
  (Nat.repr timestamp ++ "-") ++ sanitizeFilename (strTake title 30)

/-! ### Node `path` model (posix semantics of `path.extname` /
`path.basename(p, ext)`, as used by multer's filename callback) -/

/-- Drop trailing `/` characters. -/
def stripTrailingSlashes (l : List Char) : List Char :=
  (l.reverse.dropWhile (fun c => c == '/')).reverse

/-- The last path segment (after trailing slashes are ignored). -/
def lastSegmentChars (l : List Char) : List Char :=
  ((stripTrailingSlashes l).reverse.takeWhile (fun c => !(c == '/'))).reverse

/-- Index of the last `.` in a segment, if any. -/
def lastDotIdx (b : List Char) : Option Nat :=
  match b.reverse.findIdx? (fun c => c == '.') with
  | none => none
  | some j => some (b.length - 1 - j)

/-- Extension of a slash-free segment, following Node: empty when there is
no dot, when the only dot is the leading character, or for the segment
`..`; otherwise everything from the last dot on. -/
def extnameSeg (b : List Char) : List Char :=
  match lastDotIdx b with
  | none => []
  | some 0 => []
  | some d => if b == ['.', '.'] then [] else b.drop d

/-- Model of Node `path.extname` (posix). -/
def extname (p : String) : String := ⟨extnameSeg (lastSegmentChars p.data)⟩

/-- Model of Node `path.basename(p, ext)` (posix): the last path segment,
with a final occurrence of `ext` stripped unless the segment equals
`ext`. -/
def basenameExt (p ext : String) : String :=
  let b := lastSegmentChars p.data
  if !ext.data.isEmpty && ext.data.isSuffixOf b && !(b == ext.data) then
    ⟨b.take (b.length - ext.data.length)⟩
  else ⟨b⟩

/-- Model of multer's `filename` callback (server.js lines 52-61):
`{fieldname}-{Date.now()}-{sanitize(basename)}{ext}`. -/
def multerFilename (fieldname : String) (now : Nat) (originalname : String) :
    String :=
  ((((fieldname ++ "-") ++ Nat.repr now) ++ "-") ++
      sanitizeFilename (basenameExt originalname (extname originalname))) ++
    extname originalname

example : extname "movie.mp4" = ".mp4" := by decide
example : extname ".bashrc" = "" := by decide
example : extname "archive.tar.gz" = ".gz" := by decide
example : extname "noext" = "" := by decide
example : basenameExt "movie.mp4" (extname "movie.mp4") = "movie" := by decide
example : multerFilename "thumbnail" 5 "my pic.png" = "thumbnail-5-my_pic.png" := by
  decide

/-- The concrete title refuting C3's cap-then-sanitize order: thirty `!`
followed by `z`. -/
def c3Title : String := "!!!!!!!!!!!!!!!!!!!!!!!!!!!!!!z"

/-- C3 counterexample: sanitizing then capping (the code, which yields
`7-_z`) differs from capping then sanitizing (the claim, which would
yield `7-_`) on a 31-character title. -/
theorem C3_counterexample :
    createMovieFolderName 7 c3Title ≠ specFolderNameCapFirst 7 c3Title ∧
      createMovieFolderName 7 c3Title = "7-_z" ∧
      specFolderNameCapFirst 7 c3Title = "7-_" := by
  decide

/-- C10: the stored filename ends with the original extension appended
verbatim (only the basename is sanitized), so an extension containing
characters outside the whitelist — such as `.mp4!` — survives into the
stored filename. -/
theorem C10_extension_appended_verbatim :
    (∀ (f o : String) (n : Nat), (extname o).data <:+ (multerFilename f n o).data) ∧
      multerFilename "video" 3 "clip.mp4!" = "video-3-clip" ++ ".mp4!" ∧
      (multerFilename "video" 3 "clip.mp4!").data.all keepChar = false := by
  refine ⟨?_, by decide, by decide⟩
  intro f o n
  rw [multerFilename, String.data_append]
  exact List.suffix_append _ _

/-! ### Filesystem, catalog and HTTP model

The pipeline's side effects are modelled over an explicit state: a
filesystem of directories and files (association list keyed by path) and
the `movies.json` backing store.  File contents are either raw text (for
uploaded assets and URL sidecars) or a structured metadata record (for
`metadata.json`).
-/

/-- The record written to `metadata.json` (server.js lines 164-171). -/
structure Metadata where
  id : String
  title : String
  description : String
  uploadDate : String
  thumbnail : String
  video : String
deriving DecidableEq, Repr

/-- A catalog entry appended to `movies.json` (server.js lines 183-191). -/
structure Movie where
  id : String
  title : String
  description : String
  folderPath : String
  thumbnail : String
  video : String
  uploadDate : String
deriving DecidableEq, Repr

/-- Contents of a stored file. -/
inductive FileContent where
  | text (s : String)
  | meta (m : Metadata)
deriving DecidableEq, Repr

/-- A filesystem: a list of directories and of (path, contents) files. -/
structure FS where
  dirs : List String
  files : List (String × FileContent)
deriving DecidableEq, Repr

/-- Model of `path.join(a, b)` for clean segments. -/
def pjoin (a b : String) : String := (a ++ "/") ++ b

/-- Whether path `p` lies inside directory `d` (has `d ++ "/"` in front). -/
def pathInDir (d p : String) : Bool := (d ++ "/").data.isPrefixOf p.data

def FS.existsDir (fs : FS) (d : String) : Bool := fs.dirs.contains d

/-- Model of `fs.mkdirSync`. -/
def FS.mkdir (fs : FS) (d : String) : FS := { fs with dirs := fs.dirs ++ [d] }

/-- Model of `fs.writeFileSync`: create or overwrite. -/
def FS.writeFile (fs : FS) (p : String) (c : FileContent) : FS :=
  { fs with files := (fs.files.filter (fun pc => !(pc.1 == p))) ++ [(p, c)] }

/-- Contents of the file at `p`, if present. -/
def lookupFile (fs : FS) (p : String) : Option FileContent :=
  (fs.files.find? (fun pc => pc.1 == p)).map (fun pc => pc.2)

/-- Model of `fs.renameSync`: move the file at `o` to `n`. -/
def FS.rename (fs : FS) (o n : String) : Except String FS :=
  match fs.files.find? (fun pc => pc.1 == o) with
  | none => Except.error "ENOENT"
  | some pr =>
    Except.ok { fs with
      files := (fs.files.filter (fun pc => !(pc.1 == o) && !(pc.1 == n))) ++
        [(n, pr.2)] }

/-- Whether directory `d` contains any file or subdirectory. -/
def FS.dirHasEntries (fs : FS) (d : String) : Bool :=
  fs.files.any (fun pc => pathInDir d pc.1) ||
    fs.dirs.any (fun d2 => !(d2 == d) && pathInDir d d2)

/-- Model of `fs.rmdirSync` (non-recursive): fails with `ENOTEMPTY` on a
non-empty directory. -/
def FS.rmdir (fs : FS) (d : String) : Except String FS :=
  if fs.dirHasEntries d then Except.error "ENOTEMPTY"
  else if fs.existsDir d then
    Except.ok { fs with dirs := fs.dirs.filter (fun d2 => !(d2 == d)) }
  else Except.error "ENOENT"

/-- The `movies.json` backing store: unreadable (read throws), corrupt
(read succeeds, `JSON.parse` throws), or a parsed array of movies. -/
inductive CatalogStore where
  | unreadable
  | corrupt (raw : String)
  | valid (movies : List Movie)
deriving DecidableEq, Repr

/-- The catalog read inside `POST /upload` (server.js lines 193-202): a
failed read or parse degrades to the empty array. -/
def readAllUpload : CatalogStore → List Movie
  | CatalogStore.valid ms => ms
  | _ => []

/-- Response of `GET /api/movies`. -/
inductive MoviesResponse where
  | ok (movies : List Movie)
  | serverError (message : String)
deriving DecidableEq, Repr

/-- Model of the `GET /api/movies` handler (server.js lines 223-232): a
failed read or parse is answered with a 500 error, not an empty list. -/
def moviesHandler : CatalogStore → MoviesResponse
  | CatalogStore.valid ms => MoviesResponse.ok ms
  | _ => MoviesResponse.serverError "Error reading movies"

/-- Result of `POST /upload`: 200 with the new movie and folder name, a
400 client error, or a 500 server error (including exceptions caught by
the handler's `try/catch`). -/
inductive HttpResult where
  | ok (movie : Movie) (folderPath : String)
  | clientError (message : String)
  | serverError (message : String)
deriving DecidableEq, Repr

/-- Process-wide mutable state: uploads tree plus `movies.json`. -/
structure ServerState where
  fs : FS
  catalog : CatalogStore
deriving DecidableEq, Repr

/-- An uploaded file as it arrives in the multipart body. -/
structure RawFile where
  originalname : String
  content : String
deriving DecidableEq, Repr

/-- A file multer has staged into `uploads/temp` (server.js lines 41-62):
its generated filename and its temporary path. -/
structure StagedFile where
  filename : String
  path : String
deriving DecidableEq, Repr

/-- The multer temp directory `path.join("uploads", "temp")`. -/
def tempDirPath : String := pjoin "uploads" "temp"

/-- Model of multer's `destination`/`filename` callbacks for one optional
file of field `fieldname` (server.js lines 41-62): create `uploads/temp`
if absent and write the file there under its generated name. -/
def stageFile (fs : FS) (fieldname : String) (now : Nat) :
    Option RawFile → FS × Option StagedFile
  | none => (fs, none)
  | some raw =>
    let fs₁ := if fs.existsDir tempDirPath then fs else fs.mkdir tempDirPath
    let fname := multerFilename fieldname now raw.originalname
    let p := pjoin tempDirPath fname
    (fs₁.writeFile p (FileContent.text raw.content), some ⟨fname, p⟩)

/-- Model of one asset slot of the handler (server.js lines 121-139 for
the thumbnail, 141-160 for the video): a staged file wins over a URL and
is moved into the item directory; otherwise a truthy (non-empty) URL is
used verbatim and persisted into the slot's sidecar file; otherwise the
slot stays unset.  A rename failure propagates (caught as a 500). -/
def resolveSlot (fs : FS) (movieFolderName : String) (file? : Option StagedFile)
    (url : String) (sidecarName : String) : Except String (FS × Option String) :=
  let movieFolderPath := pjoin "uploads" movieFolderName
  match file? with
  | some f =>
    match fs.rename f.path (pjoin movieFolderPath f.filename) with
    | Except.error e => Except.error e
    | Except.ok fs' =>
      Except.ok (fs', some ((("/uploads/" ++ movieFolderName) ++ "/") ++ f.filename))
  | none =>
    if url == "" then Except.ok (fs, none)
    else
      Except.ok
        (fs.writeFile (pjoin movieFolderPath sidecarName) (FileContent.text url),
          some url)

/-- Model of the `POST /upload` handler body after multer has run
(server.js lines 101-218).  Missing form fields are modelled as `""`
(both are falsy in the `!title || !description` check and a missing URL
behaves like an empty one).  `folderTs` and `idTs` are the two separate
`Date.now()` reads (lines 35 and 165); `uploadDate` is the ISO string of
line 168. -/
def handleUpload (st : ServerState) (title description thumbnailURL videoURL : String)
    (thumbFile? videoFile? : Option StagedFile) (folderTs idTs : Nat)
    (uploadDate : String) : ServerState × HttpResult :=
  if title == "" || description == "" then
    (st, HttpResult.clientError "Title and description are required")
  else
    let movieFolderName := createMovieFolderName folderTs title
    let movieFolderPath := pjoin "uploads" movieFolderName
    let fs₁ := if st.fs.existsDir movieFolderPath then st.fs
      else st.fs.mkdir movieFolderPath
    match resolveSlot fs₁ movieFolderName thumbFile? thumbnailURL "thumbnail-url.txt" with
    | Except.error e => ({ st with fs := fs₁ }, HttpResult.serverError ("Server error: " ++ e))
    | Except.ok (fs₂, thumbnailPath) =>
      match resolveSlot fs₂ movieFolderName videoFile? videoURL "video-url.txt" with
      | Except.error e => ({ st with fs := fs₂ }, HttpResult.serverError ("Server error: " ++ e))
      | Except.ok (fs₃, videoPath) =>
        let metadata : Metadata :=
          { id := Nat.repr idTs, title := title, description := description,
            uploadDate := uploadDate,
            thumbnail := thumbnailPath.getD "", video := videoPath.getD "" }
        let fs₄ := fs₃.writeFile (pjoin movieFolderPath "metadata.json")
          (FileContent.meta metadata)
        if thumbnailPath.isNone && videoPath.isNone then
          match fs₄.rmdir movieFolderPath with
          | Except.error e =>
            ({ st with fs := fs₄ }, HttpResult.serverError ("Server error: " ++ e))
          | Except.ok fs₅ =>
            ({ st with fs := fs₅ },
              HttpResult.clientError
                "Please provide at least one thumbnail and one video (file or URL)")
        else
          let newMovie : Movie :=
            { id := metadata.id, title := title, description := description,
              folderPath := movieFolderName,
              thumbnail := thumbnailPath.getD "", video := videoPath.getD "",
              uploadDate := metadata.uploadDate }
          ({ fs := fs₄,
             catalog := CatalogStore.valid (readAllUpload st.catalog ++ [newMovie]) },
            HttpResult.ok newMovie movieFolderName)

/-- One `POST /upload` request end to end: multer stages any uploaded
files into `uploads/temp`, then the handler body runs.  `thumbTs`/`vidTs`
are the `Date.now()` reads inside multer's filename callback. -/
def submit (st : ServerState) (title description thumbnailURL videoURL : String)
    (thumbRaw? videoRaw? : Option RawFile) (thumbTs vidTs folderTs idTs : Nat)
    (uploadDate : String) : ServerState × HttpResult :=
  let s₁ := stageFile st.fs "thumbnail" thumbTs thumbRaw?
  let s₂ := stageFile s₁.1 "video" vidTs videoRaw?
  handleUpload { st with fs := s₂.1 } title description thumbnailURL videoURL
    s₁.2 s₂.2 folderTs idTs uploadDate

example :
    (submit ⟨⟨[], []⟩, CatalogStore.valid []⟩ "A" "B" "http://x" "" none none
        1 2 3 4 "D").2 =
      HttpResult.ok ⟨"4", "A", "B", "3-A", "http://x", "", "D"⟩ "3-A" := by decide

example :
    (submit ⟨⟨[], []⟩, CatalogStore.valid []⟩ "A" "B" "" "" none none
        1 2 3 4 "D").2 = HttpResult.serverError "Server error: ENOTEMPTY" := by
  decide

example :
    (submit ⟨⟨[], []⟩, CatalogStore.valid []⟩ "A" "B" "" "u"
        (some ⟨"p.png", "IMG"⟩) none 9 1 3 4 "D").2 =
      HttpResult.ok ⟨"4", "A", "B", "3-A", "/uploads/3-A/thumbnail-9-p.png", "u", "D"⟩
        "3-A" := by decide

/-! ### Claim C2: catalog read behaviour on an unreadable or corrupt store -/

/-- C2 counterexample: on an unreadable backing store, `GET /api/movies`
(the spec's `listAll()`) answers with a 500 error instead of returning the
empty sequence the claim promises. -/
theorem C2_counterexample :
    moviesHandler CatalogStore.unreadable =
        MoviesResponse.serverError "Error reading movies" ∧
      moviesHandler CatalogStore.unreadable ≠ MoviesResponse.ok [] := by
  decide

/-- C2 amended: only the catalog read inside `POST /upload` degrades to
the empty sequence on an unreadable or corrupt store; `GET /api/movies`
answers such stores with a 500 error, and returns the parsed list
verbatim otherwise. -/
theorem C2_amended_read_paths :
    (readAllUpload CatalogStore.unreadable = [] ∧
        ∀ s, readAllUpload (CatalogStore.corrupt s) = []) ∧
      moviesHandler CatalogStore.unreadable =
        MoviesResponse.serverError "Error reading movies" ∧
      (∀ s, moviesHandler (CatalogStore.corrupt s) =
        MoviesResponse.serverError "Error reading movies") ∧
      (∀ ms, moviesHandler (CatalogStore.valid ms) = MoviesResponse.ok ms) :=
  ⟨⟨rfl, fun _ => rfl⟩, rfl, fun _ => rfl, fun _ => rfl⟩

/-! ### Generic state lemmas -/

lemma str_ext {s t : String} (h : s.data = t.data) : s = t := by
  cases s; cases t; exact congrArg String.mk h

lemma lookupFile_writeFile_self (fs : FS) (p : String) (c : FileContent) :
    lookupFile (fs.writeFile p c) p = some c := by
  unfold lookupFile FS.writeFile
  rw [List.find?_append]
  have hnone : (fs.files.filter (fun pc => !(pc.1 == p))).find?
      (fun pc => pc.1 == p) = none := by
    rw [List.find?_eq_none]
    intro x hx
    have hmem := List.mem_filter.mp hx
    simpa using hmem.2
  rw [hnone]
  simp

lemma pathInDir_pjoin (d x : String) : pathInDir d (pjoin d x) = true := by
  unfold pathInDir pjoin
  rw [String.data_append]
  simp

lemma stageFile_dirs_sub (fs : FS) (f : String) (n : Nat) (r : Option RawFile) :
    ∀ d ∈ ((stageFile fs f n r).1).dirs, d ∈ fs.dirs ∨ d = tempDirPath := by
  cases r with
  | none => intro d hd; exact Or.inl hd
  | some raw =>
    intro d hd
    simp only [stageFile, FS.writeFile] at hd
    by_cases h : fs.existsDir tempDirPath = true
    · rw [if_pos h] at hd
      exact Or.inl hd
    · rw [if_neg h] at hd
      simp only [FS.mkdir] at hd
      rcases List.mem_append.mp hd with h1 | h2
      · exact Or.inl h1
      · simp only [List.mem_singleton] at h2
        exact Or.inr h2

/-! ### Claims C1, C5, C9: validation and the no-assets path -/

/-- Shared evaluation of a submission that has a title and description but
no file and no URL for either slot: the handler writes `metadata.json`
into the just-created folder BEFORE the no-assets check, so the
`fs.rmdirSync` cleanup hits a non-empty directory, throws `ENOTEMPTY`,
and the catch-all turns the request into a 500. -/
lemma submit_noAssets (st : ServerState) (title description : String)
    (tsT tsV tsF tsI : Nat) (date : String)
    (hT : title ≠ "") (hD : description ≠ "") :
    submit st title description "" "" none none tsT tsV tsF tsI date =
      (ServerState.mk
        (FS.writeFile
          (if st.fs.existsDir (pjoin "uploads" (createMovieFolderName tsF title))
            then st.fs
            else st.fs.mkdir (pjoin "uploads" (createMovieFolderName tsF title)))
          (pjoin (pjoin "uploads" (createMovieFolderName tsF title)) "metadata.json")
          (FileContent.meta ⟨Nat.repr tsI, title, description, date, "", ""⟩))
        st.catalog,
        HttpResult.serverError ("Server error: " ++ "ENOTEMPTY")) := by
  have hcond : (title == "" || description == "") = false := by
    simp [hT, hD]
  have hurl : (("" : String) == "") = true := by decide
  have hmeta : ∀ fsx : FS,
      (fsx.writeFile (pjoin (pjoin "uploads" (createMovieFolderName tsF title))
          "metadata.json")
        (FileContent.meta ⟨Nat.repr tsI, title, description, date, "", ""⟩)).dirHasEntries
        (pjoin "uploads" (createMovieFolderName tsF title)) = true := by
    intro fsx
    simp only [FS.dirHasEntries, FS.writeFile, List.any_append]
    simp [pathInDir_pjoin]
  simp only [submit, stageFile, handleUpload, resolveSlot, hcond, Bool.false_eq_true,
    if_false, hurl, if_true, Option.getD_none, Option.isNone_none, Bool.and_self,
    FS.rmdir, hmeta]

/-- C1 (code bug): for a submission with a title and description but no
file and no URL for either slot, the code does NOT answer a 400 with a
clean directory removal: `metadata.json` is written before the no-assets
check, so `fs.rmdirSync` throws `ENOTEMPTY`, the request fails as a 500,
the item directory survives still holding `metadata.json`, and only the
claim's "catalog unchanged" part holds. -/
theorem C1_no_assets_is_500_and_directory_survives
    (st : ServerState) (title description : String)
    (tsT tsV tsF tsI : Nat) (date : String)
    (hT : title ≠ "") (hD : description ≠ "") :
    (submit st title description "" "" none none tsT tsV tsF tsI date).2 =
        HttpResult.serverError ("Server error: " ++ "ENOTEMPTY") ∧
      (submit st title description "" "" none none tsT tsV tsF tsI date).1.catalog =
        st.catalog ∧
      pjoin "uploads" (createMovieFolderName tsF title) ∈
        (submit st title description "" "" none none tsT tsV tsF tsI date).1.fs.dirs ∧
      lookupFile (submit st title description "" "" none none tsT tsV tsF tsI date).1.fs
          (pjoin (pjoin "uploads" (createMovieFolderName tsF title)) "metadata.json") =
        some (FileContent.meta ⟨Nat.repr tsI, title, description, date, "", ""⟩) := by
  rw [submit_noAssets st title description tsT tsV tsF tsI date hT hD]
  refine ⟨rfl, rfl, ?_, lookupFile_writeFile_self _ _ _⟩
  by_cases h : st.fs.existsDir (pjoin "uploads" (createMovieFolderName tsF title)) = true
  · rw [if_pos h]
    simp only [FS.writeFile]
    exact List.elem_iff.mp h
  · rw [if_neg h]
    simp [FS.writeFile, FS.mkdir]

/-- Witness for C1 at a concrete input. -/
theorem C1_witness :
    (submit ⟨⟨[], []⟩, CatalogStore.valid []⟩ "A" "B" "" "" none none
          1 2 3 4 "D").2 =
        HttpResult.serverError ("Server error: " ++ "ENOTEMPTY") ∧
      (submit ⟨⟨[], []⟩, CatalogStore.valid []⟩ "A" "B" "" "" none none
          1 2 3 4 "D").1.catalog = CatalogStore.valid [] ∧
      pjoin "uploads" (createMovieFolderName 3 "A") ∈
        (submit ⟨⟨[], []⟩, CatalogStore.valid []⟩ "A" "B" "" "" none none
          1 2 3 4 "D").1.fs.dirs ∧
      lookupFile (submit ⟨⟨[], []⟩, CatalogStore.valid []⟩ "A" "B" "" "" none none
            1 2 3 4 "D").1.fs
          (pjoin (pjoin "uploads" (createMovieFolderName 3 "A")) "metadata.json") =
        some (FileContent.meta ⟨Nat.repr 4, "A", "B", "D", "", ""⟩) :=
  C1_no_assets_is_500_and_directory_survives ⟨⟨[], []⟩, CatalogStore.valid []⟩
    "A" "B" 1 2 3 4 "D" (by decide) (by decide)

/-- C9: an empty-string URL is treated as absent: the slot resolves to no
reference and writes no sidecar (the filesystem is returned untouched),
and empty-string URLs alone cannot satisfy the at-least-one-asset
requirement (the request does not succeed and the catalog is unchanged). -/
theorem C9_empty_url_treated_as_absent (st : ServerState) (title description : String)
    (tsT tsV tsF tsI : Nat) (date : String)
    (hT : title ≠ "") (hD : description ≠ "") :
    (∀ (fs : FS) (mfn sc : String),
        resolveSlot fs mfn none "" sc = Except.ok (fs, none)) ∧
      (∀ m fp, (submit st title description "" "" none none tsT tsV tsF tsI date).2 ≠
        HttpResult.ok m fp) ∧
      (submit st title description "" "" none none tsT tsV tsF tsI date).1.catalog =
        st.catalog := by
  refine ⟨fun fs mfn sc => rfl, ?_, ?_⟩
  · intro m fp
    rw [submit_noAssets st title description tsT tsV tsF tsI date hT hD]
    simp
  · rw [submit_noAssets st title description tsT tsV tsF tsI date hT hD]

/-- Witness for C9 at a concrete input. -/
theorem C9_witness :
    (∀ (fs : FS) (mfn sc : String),
        resolveSlot fs mfn none "" sc = Except.ok (fs, none)) ∧
      (∀ m fp, (submit ⟨⟨[], []⟩, CatalogStore.valid []⟩ "T" "E" "" "" none none
          5 6 7 8 "D2").2 ≠ HttpResult.ok m fp) ∧
      (submit ⟨⟨[], []⟩, CatalogStore.valid []⟩ "T" "E" "" "" none none
          5 6 7 8 "D2").1.catalog = CatalogStore.valid [] :=
  C9_empty_url_treated_as_absent ⟨⟨[], []⟩, CatalogStore.valid []⟩
    "T" "E" 5 6 7 8 "D2" (by decide) (by decide)

/-- C5: a submission with a missing or empty title or description is
rejected with the 400 validation message before any item directory is
created (at most multer's `uploads/temp` staging directory appears) and
without touching the catalog. -/
theorem C5_validation_rejects_missing_title_or_description
    (st : ServerState) (title description thumbnailURL videoURL : String)
    (tf vf : Option RawFile) (tsT tsV tsF tsI : Nat) (date : String)
    (h : title = "" ∨ description = "") :
    (submit st title description thumbnailURL videoURL tf vf tsT tsV tsF tsI date).2 =
        HttpResult.clientError "Title and description are required" ∧
      (submit st title description thumbnailURL videoURL tf vf
          tsT tsV tsF tsI date).1.catalog = st.catalog ∧
      ∀ d ∈ (submit st title description thumbnailURL videoURL tf vf
          tsT tsV tsF tsI date).1.fs.dirs, d ∈ st.fs.dirs ∨ d = tempDirPath := by
  have hcond : (title == "" || description == "") = true := by
    rcases h with h | h <;> simp [h]
  refine ⟨?_, ?_, ?_⟩
  · simp [submit, handleUpload, hcond]
  · simp [submit, handleUpload, hcond]
  · intro d hd
    simp only [submit, handleUpload, hcond, if_true] at hd
    rcases stageFile_dirs_sub _ _ _ _ d hd with h1 | h2
    · rcases stageFile_dirs_sub _ _ _ _ d h1 with h3 | h4
      · exact Or.inl h3
      · exact Or.inr h4
    · exact Or.inr h2

/-- Witness for C5 at a concrete input (empty title, assets present). -/
theorem C5_witness :
    (submit ⟨⟨[], []⟩, CatalogStore.valid []⟩ "" "desc" "http://t" ""
          (some ⟨"v.mp4", "VID"⟩) none 1 2 3 4 "D").2 =
        HttpResult.clientError "Title and description are required" ∧
      (submit ⟨⟨[], []⟩, CatalogStore.valid []⟩ "" "desc" "http://t" ""
          (some ⟨"v.mp4", "VID"⟩) none 1 2 3 4 "D").1.catalog =
        CatalogStore.valid [] ∧
      ∀ d ∈ (submit ⟨⟨[], []⟩, CatalogStore.valid []⟩ "" "desc" "http://t" ""
          (some ⟨"v.mp4", "VID"⟩) none 1 2 3 4 "D").1.fs.dirs,
        d ∈ (⟨[], []⟩ : FS).dirs ∨ d = tempDirPath :=
  C5_validation_rejects_missing_title_or_description
    ⟨⟨[], []⟩, CatalogStore.valid []⟩ "" "desc" "http://t" ""
    (some ⟨"v.mp4", "VID"⟩) none 1 2 3 4 "D" (Or.inl rfl)

/-- C6: per asset slot, a staged uploaded file takes precedence over any
URL (the slot's reference is the uploads path and the file is moved);
with no file and a non-empty URL, the reference is the URL verbatim and
the `{slot}-url.txt` sidecar holds exactly the URL; with neither, the
slot stays unset and the filesystem is untouched. -/
theorem C6_slot_resolution (fs : FS) (mfn sc url₁ url₂ : String) (f : StagedFile)
    (pr : String × FileContent)
    (hfind : fs.files.find? (fun pc => pc.1 == f.path) = some pr)
    (hu : url₂ ≠ "") :
    (resolveSlot fs mfn (some f) url₁ sc =
        Except.ok
          ({ fs with files :=
              (fs.files.filter (fun pc =>
                !(pc.1 == f.path) &&
                  !(pc.1 == pjoin (pjoin "uploads" mfn) f.filename))) ++
                [(pjoin (pjoin "uploads" mfn) f.filename, pr.2)] },
            some ((("/uploads/" ++ mfn) ++ "/") ++ f.filename))) ∧
      (resolveSlot fs mfn none url₂ sc =
        Except.ok
          (fs.writeFile (pjoin (pjoin "uploads" mfn) sc) (FileContent.text url₂),
            some url₂)) ∧
      lookupFile (fs.writeFile (pjoin (pjoin "uploads" mfn) sc) (FileContent.text url₂))
          (pjoin (pjoin "uploads" mfn) sc) = some (FileContent.text url₂) ∧
      resolveSlot fs mfn none "" sc = Except.ok (fs, none) := by
  refine ⟨?_, ?_, lookupFile_writeFile_self _ _ _, rfl⟩
  · simp only [resolveSlot, FS.rename, hfind]
  · simp only [resolveSlot]
    rw [if_neg (by simpa using hu)]

/-- Witness for C6 at a concrete input. -/
theorem C6_witness :
    (resolveSlot ⟨[], [("uploads/temp/thumbnail-1-a.png", FileContent.text "X")]⟩
          "9-M" (some ⟨"thumbnail-1-a.png", "uploads/temp/thumbnail-1-a.png"⟩)
          "http://ignored" "thumbnail-url.txt" =
        Except.ok
          ({ (⟨[], [("uploads/temp/thumbnail-1-a.png", FileContent.text "X")]⟩ : FS)
              with files :=
              (([("uploads/temp/thumbnail-1-a.png", FileContent.text "X")] :
                  List (String × FileContent)).filter (fun pc =>
                !(pc.1 == "uploads/temp/thumbnail-1-a.png") &&
                  !(pc.1 == pjoin (pjoin "uploads" "9-M") "thumbnail-1-a.png"))) ++
                [(pjoin (pjoin "uploads" "9-M") "thumbnail-1-a.png",
                  ("uploads/temp/thumbnail-1-a.png", FileContent.text "X").2)] },
            some ((("/uploads/" ++ "9-M") ++ "/") ++ "thumbnail-1-a.png"))) ∧
      (resolveSlot ⟨[], [("uploads/temp/thumbnail-1-a.png", FileContent.text "X")]⟩
          "9-M" none "http://u" "thumbnail-url.txt" =
        Except.ok
          ((⟨[], [("uploads/temp/thumbnail-1-a.png", FileContent.text "X")]⟩ :
              FS).writeFile
            (pjoin (pjoin "uploads" "9-M") "thumbnail-url.txt")
            (FileContent.text "http://u"), some "http://u")) ∧
      lookupFile
          ((⟨[], [("uploads/temp/thumbnail-1-a.png", FileContent.text "X")]⟩ :
              FS).writeFile
            (pjoin (pjoin "uploads" "9-M") "thumbnail-url.txt")
            (FileContent.text "http://u"))
          (pjoin (pjoin "uploads" "9-M") "thumbnail-url.txt") =
        some (FileContent.text "http://u") ∧
      resolveSlot ⟨[], [("uploads/temp/thumbnail-1-a.png", FileContent.text "X")]⟩
          "9-M" none "" "thumbnail-url.txt" =
        Except.ok
          (⟨[], [("uploads/temp/thumbnail-1-a.png", FileContent.text "X")]⟩, none) :=
  C6_slot_resolution ⟨[], [("uploads/temp/thumbnail-1-a.png", FileContent.text "X")]⟩
    "9-M" "thumbnail-url.txt" "http://ignored" "http://u"
    ⟨"thumbnail-1-a.png", "uploads/temp/thumbnail-1-a.png"⟩
    ("uploads/temp/thumbnail-1-a.png", FileContent.text "X") (by decide) (by decide)

/-! ### The success path of the handler (shared by C3 and C8) -/

lemma resolveSlot_dirs_eq (fs fs' : FS) (n : String) (f? : Option StagedFile)
    (u s : String) (r : Option String)
    (h : resolveSlot fs n f? u s = Except.ok (fs', r)) : fs'.dirs = fs.dirs := by
  cases f? with
  | some f =>
    simp only [resolveSlot, FS.rename] at h
    cases hf : fs.files.find? (fun pc => pc.1 == f.path) with
    | none => rw [hf] at h; cases h
    | some pr =>
      rw [hf] at h
      have h1 := (Except.ok.injEq _ _).mp h
      have h2 : fs' = { fs with
          files := (fs.files.filter (fun pc =>
            !(pc.1 == f.path) && !(pc.1 == pjoin (pjoin "uploads" n) f.filename))) ++
            [(pjoin (pjoin "uploads" n) f.filename, pr.2)] } :=
        (congrArg Prod.fst h1).symm
      rw [h2]
  | none =>
    simp only [resolveSlot] at h
    by_cases hu : (u == "") = true
    · rw [if_pos hu] at h
      have h1 := (Except.ok.injEq _ _).mp h
      have h2 : fs = fs' := congrArg Prod.fst h1
      rw [← h2]
    · rw [if_neg hu] at h
      have h1 := (Except.ok.injEq _ _).mp h
      have h2 : fs' = fs.writeFile (pjoin (pjoin "uploads" n) s)
          (FileContent.text u) := (congrArg Prod.fst h1).symm
      rw [h2, FS.writeFile]

/-- Any 200 response of the handler pins down the whole result: the folder
name is `createMovieFolderName`, the echoed movie carries the submitted
fields, the final filesystem ends with the `metadata.json` write whose
record carries the same five fields as the movie, the item directory is
present, and the catalog is the old (fallback-read) list with exactly the
new movie appended. -/
lemma handleUpload_ok_shape (st : ServerState) (title description tu vu : String)
    (tf vf : Option StagedFile) (tsF tsI : Nat) (date : String) (m : Movie)
    (fp : String)
    (h : (handleUpload st title description tu vu tf vf tsF tsI date).2 =
      HttpResult.ok m fp) :
    fp = createMovieFolderName tsF title ∧
      m.folderPath = fp ∧ m.id = Nat.repr tsI ∧ m.title = title ∧
      m.description = description ∧ m.uploadDate = date ∧
      ∃ fs₃ : FS,
        pjoin "uploads" fp ∈ fs₃.dirs ∧
        handleUpload st title description tu vu tf vf tsF tsI date =
          ({ fs := fs₃.writeFile (pjoin (pjoin "uploads" fp) "metadata.json")
              (FileContent.meta
                ⟨m.id, m.title, m.description, m.uploadDate, m.thumbnail, m.video⟩),
             catalog := CatalogStore.valid (readAllUpload st.catalog ++ [m]) },
            HttpResult.ok m fp) := by
  cases htd : (title == "" || description == "") with
  | true => simp [handleUpload, htd] at h
  | false =>
    have hmem : pjoin "uploads" (createMovieFolderName tsF title) ∈
        (if st.fs.existsDir (pjoin "uploads" (createMovieFolderName tsF title)) = true
          then st.fs
          else st.fs.mkdir (pjoin "uploads" (createMovieFolderName tsF title))).dirs := by
      by_cases hex : st.fs.existsDir (pjoin "uploads" (createMovieFolderName tsF title)) = true
      · rw [if_pos hex]
        exact List.elem_iff.mp hex
      · rw [if_neg hex]
        simp [FS.mkdir]
    cases hr1 : resolveSlot
        (if st.fs.existsDir (pjoin "uploads" (createMovieFolderName tsF title)) = true
          then st.fs
          else st.fs.mkdir (pjoin "uploads" (createMovieFolderName tsF title)))
        (createMovieFolderName tsF title) tf tu "thumbnail-url.txt" with
    | error e => simp [handleUpload, htd, hr1] at h
    | ok p1 =>
      obtain ⟨fs₂, tp⟩ := p1
      cases hr2 : resolveSlot fs₂ (createMovieFolderName tsF title) vf vu
          "video-url.txt" with
      | error e => simp [handleUpload, htd, hr1, hr2] at h
      | ok p2 =>
        obtain ⟨fs₃, vp⟩ := p2
        cases hnn : (tp.isNone && vp.isNone) with
        | true =>
          cases hrm : FS.rmdir
              (fs₃.writeFile
                (pjoin (pjoin "uploads" (createMovieFolderName tsF title))
                  "metadata.json")
                (FileContent.meta
                  ⟨Nat.repr tsI, title, description, date, tp.getD "", vp.getD ""⟩))
              (pjoin "uploads" (createMovieFolderName tsF title)) with
          | error e => simp [handleUpload, htd, hr1, hr2, hnn, hrm] at h
          | ok fs₅ => simp [handleUpload, htd, hr1, hr2, hnn, hrm] at h
        | false =>
          simp only [handleUpload, htd, Bool.false_eq_true, if_false, hr1, hr2, hnn]
            at h ⊢
          obtain ⟨hm, hfp⟩ := (HttpResult.ok.injEq _ _ _ _).mp h
          subst hfp
          refine ⟨rfl, by rw [← hm], by rw [← hm], by rw [← hm], by rw [← hm],
            by rw [← hm], fs₃, ?_, ?_⟩
          · rw [resolveSlot_dirs_eq _ _ _ _ _ _ _ hr2,
              resolveSlot_dirs_eq _ _ _ _ _ _ _ hr1]
            exact hmem
          · rw [← hm]

/-- C8: on every successful submission, the `metadata.json` document in
the item directory and the catalog entry appended for the item (the
movie echoed in the 200 response) agree on id, title, description,
thumbnail reference and video reference. -/
theorem C8_metadata_and_catalog_agree (st : ServerState)
    (title description tu vu : String) (traw vraw : Option RawFile)
    (tsT tsV tsF tsI : Nat) (date : String) (m : Movie) (fp : String)
    (h : (submit st title description tu vu traw vraw tsT tsV tsF tsI date).2 =
      HttpResult.ok m fp) :
    lookupFile (submit st title description tu vu traw vraw tsT tsV tsF tsI date).1.fs
        (pjoin (pjoin "uploads" fp) "metadata.json") =
      some (FileContent.meta
        ⟨m.id, m.title, m.description, m.uploadDate, m.thumbnail, m.video⟩) ∧
      (submit st title description tu vu traw vraw tsT tsV tsF tsI date).1.catalog =
        CatalogStore.valid (readAllUpload st.catalog ++ [m]) := by
  have hsub : submit st title description tu vu traw vraw tsT tsV tsF tsI date =
      handleUpload
        { st with fs :=
            (stageFile (stageFile st.fs "thumbnail" tsT traw).1 "video" tsV vraw).1 }
        title description tu vu (stageFile st.fs "thumbnail" tsT traw).2
        (stageFile (stageFile st.fs "thumbnail" tsT traw).1 "video" tsV vraw).2
        tsF tsI date := rfl
  rw [hsub] at h ⊢
  obtain ⟨hfp, hmfp, hid, hti, hde, hud, fs₃, hdirs, heq⟩ :=
    handleUpload_ok_shape _ _ _ _ _ _ _ _ _ _ _ _ h
  refine ⟨?_, ?_⟩
  · rw [heq]
    exact lookupFile_writeFile_self _ _ _
  · rw [heq]

/-- Witness for C8 at a concrete successful submission. -/
theorem C8_witness :
    lookupFile (submit ⟨⟨[], []⟩, CatalogStore.valid []⟩ "A" "B" "http://x" ""
          none none 1 2 3 4 "D").1.fs
        (pjoin (pjoin "uploads" "3-A") "metadata.json") =
      some (FileContent.meta ⟨"4", "A", "B", "D", "http://x", ""⟩) ∧
      (submit ⟨⟨[], []⟩, CatalogStore.valid []⟩ "A" "B" "http://x" ""
          none none 1 2 3 4 "D").1.catalog =
        CatalogStore.valid (readAllUpload (CatalogStore.valid []) ++
          [⟨"4", "A", "B", "3-A", "http://x", "", "D"⟩]) :=
  C8_metadata_and_catalog_agree ⟨⟨[], []⟩, CatalogStore.valid []⟩ "A" "B" "http://x" ""
    none none 1 2 3 4 "D" ⟨"4", "A", "B", "3-A", "http://x", "", "D"⟩ "3-A" (by decide)

/-- C3 amended: the item directory name is
`{timestamp}-{sanitize(title) truncated to 30 chars}` — the sanitizer
runs first and the 30-character cap is applied to its output (not the
other way around as the claim words it); every successful submission
stores and reports exactly that folder name, and the directory exists. -/
theorem C3_amended_folder_name_sanitize_then_cap (st : ServerState)
    (title description tu vu : String) (traw vraw : Option RawFile)
    (tsT tsV tsF tsI : Nat) (date : String) (m : Movie) (fp : String)
    (h : (submit st title description tu vu traw vraw tsT tsV tsF tsI date).2 =
      HttpResult.ok m fp) :
    fp = (Nat.repr tsF ++ "-") ++ strTake (sanitizeFilename title) 30 ∧
      m.folderPath = fp ∧
      pjoin "uploads" fp ∈
        (submit st title description tu vu traw vraw tsT tsV tsF tsI date).1.fs.dirs := by
  have hsub : submit st title description tu vu traw vraw tsT tsV tsF tsI date =
      handleUpload
        { st with fs :=
            (stageFile (stageFile st.fs "thumbnail" tsT traw).1 "video" tsV vraw).1 }
        title description tu vu (stageFile st.fs "thumbnail" tsT traw).2
        (stageFile (stageFile st.fs "thumbnail" tsT traw).1 "video" tsV vraw).2
        tsF tsI date := rfl
  rw [hsub] at h ⊢
  obtain ⟨hfp, hmfp, hid, hti, hde, hud, fs₃, hdirs, heq⟩ :=
    handleUpload_ok_shape _ _ _ _ _ _ _ _ _ _ _ _ h
  refine ⟨hfp.trans rfl, hmfp, ?_⟩
  rw [heq]
  simpa [FS.writeFile] using hdirs

/-- Witness for C3's amended claim at a concrete successful submission. -/
theorem C3_amended_witness :
    "10-My_Movie" = (Nat.repr 10 ++ "-") ++ strTake (sanitizeFilename "My Movie") 30 ∧
      Movie.folderPath ⟨"11", "My Movie", "B", "10-My_Movie", "u", "", "D8"⟩ =
        "10-My_Movie" ∧
      pjoin "uploads" "10-My_Movie" ∈
        (submit ⟨⟨[], []⟩, CatalogStore.valid []⟩ "My Movie" "B" "u" ""
          none none 1 2 10 11 "D8").1.fs.dirs :=
  C3_amended_folder_name_sanitize_then_cap ⟨⟨[], []⟩, CatalogStore.valid []⟩
    "My Movie" "B" "u" "" none none 1 2 10 11 "D8"
    ⟨"11", "My Movie", "B", "10-My_Movie", "u", "", "D8"⟩ "10-My_Movie" (by decide)

/-! ### Path disjointness facts for the file-move claim (C7)

The staged temp paths, the item-directory paths and `metadata.json` are
pairwise distinct: temp paths start `uploads/temp/`, item directories
start `uploads/{digits}-`, and filenames start with their field name.
-/

lemma digitChar_isDigit (m : Nat) (h : m < 10) : (Nat.digitChar m).isDigit = true := by
  interval_cases m <;> decide

lemma toDigitsCore_shape :
    ∀ (fuel n : Nat) (ds : List Char),
      ∃ l, Nat.toDigitsCore 10 fuel n ds = l ++ ds ∧ (0 < fuel → l ≠ []) ∧
        ∀ c ∈ l, c.isDigit = true := by
  intro fuel
  induction fuel with
  | zero => intro n ds; exact ⟨[], rfl, by simp, by simp⟩
  | succ fuel ih =>
    intro n ds
    by_cases h : n / 10 = 0
    · refine ⟨[Nat.digitChar (n % 10)], by simp [Nat.toDigitsCore, h], by simp, ?_⟩
      intro c hc
      simp only [List.mem_singleton] at hc
      rw [hc]
      exact digitChar_isDigit _ (Nat.mod_lt _ (by decide))
    · obtain ⟨l, hl, hne, hdig⟩ := ih (n / 10) (Nat.digitChar (n % 10) :: ds)
      refine ⟨l ++ [Nat.digitChar (n % 10)], ?_, by simp, ?_⟩
      · rw [show Nat.toDigitsCore 10 (fuel + 1) n ds =
              Nat.toDigitsCore 10 fuel (n / 10) (Nat.digitChar (n % 10) :: ds) from by
            simp [Nat.toDigitsCore, h]]
        rw [hl, List.append_assoc]
        simp
      · intro c hc
        rcases List.mem_append.mp hc with h1 | h2
        · exact hdig c h1
        · simp only [List.mem_singleton] at h2
          rw [h2]
          exact digitChar_isDigit _ (Nat.mod_lt _ (by decide))

lemma repr_head_digit (n : Nat) :
    ∃ c l, (Nat.repr n).data = c :: l ∧ c.isDigit = true := by
  obtain ⟨l, hl, hne, hdig⟩ := toDigitsCore_shape (n + 1) n []
  have hdata : (Nat.repr n).data = l := by
    show (Nat.toDigits 10 n).asString.data = l
    rw [show Nat.toDigits 10 n = Nat.toDigitsCore 10 (n + 1) n [] from rfl, hl]
    exact List.append_nil l
  cases l with
  | nil => exact absurd rfl (hne (Nat.succ_pos n))
  | cons c l' => exact ⟨c, l', hdata, hdig c (List.mem_cons_self _ _)⟩

lemma pjoin_data (a b : String) : (pjoin a b).data = (a.data ++ ['/']) ++ b.data := by
  simp only [pjoin, String.data_append]

lemma strHead_ne (s t : String) (c d : Char) (hs : s.data.head? = some c)
    (ht : t.data.head? = some d) (hcd : c ≠ d) : s ≠ t := by
  intro he
  rw [he, ht] at hs
  exact hcd ((Option.some.injEq _ _).mp hs).symm

lemma pjoin_beq_false_of_ne (d x y : String) (hxy : x ≠ y) :
    (pjoin d x == pjoin d y) = false := by
  rw [beq_eq_false_iff_ne]
  intro he
  apply hxy
  apply str_ext
  have hd := congrArg String.data he
  rw [pjoin_data, pjoin_data] at hd
  exact (List.append_right_inj _).mp hd

lemma multer_thumb_head (a : Nat) (o : String) :
    (multerFilename "thumbnail" a o).data.head? = some 't' := rfl

lemma multer_video_head (a : Nat) (o : String) :
    (multerFilename "video" a o).data.head? = some 'v' := rfl

lemma mfn_head_digit (tsF : Nat) (title : String) :
    ∃ c, (createMovieFolderName tsF title).data.head? = some c ∧ c.isDigit = true := by
  obtain ⟨c, l, hc, hdig⟩ := repr_head_digit tsF
  refine ⟨c, ?_, hdig⟩
  show (((Nat.repr tsF ++ "-") ++ strTake (sanitizeFilename title) 30).data).head? =
    some c
  rw [String.data_append, String.data_append, hc]
  rfl

lemma beq_tp_vp (a b : Nat) (o o' : String) :
    (pjoin tempDirPath (multerFilename "thumbnail" a o) ==
      pjoin tempDirPath (multerFilename "video" b o')) = false :=
  pjoin_beq_false_of_ne _ _ _
    (strHead_ne _ _ 't' 'v' (multer_thumb_head a o) (multer_video_head b o')
      (by decide))

lemma beq_vp_tp (a b : Nat) (o o' : String) :
    (pjoin tempDirPath (multerFilename "video" b o') ==
      pjoin tempDirPath (multerFilename "thumbnail" a o)) = false :=
  pjoin_beq_false_of_ne _ _ _
    (strHead_ne _ _ 'v' 't' (multer_video_head b o') (multer_thumb_head a o)
      (by decide))

lemma beq_np_thumb_video (mfn : String) (a b : Nat) (o o' : String) :
    (pjoin (pjoin "uploads" mfn) (multerFilename "thumbnail" a o) ==
      pjoin (pjoin "uploads" mfn) (multerFilename "video" b o')) = false :=
  pjoin_beq_false_of_ne _ _ _
    (strHead_ne _ _ 't' 'v' (multer_thumb_head a o) (multer_video_head b o')
      (by decide))

lemma beq_np_thumb_meta (mfn : String) (a : Nat) (o : String) :
    (pjoin (pjoin "uploads" mfn) (multerFilename "thumbnail" a o) ==
      pjoin (pjoin "uploads" mfn) "metadata.json") = false :=
  pjoin_beq_false_of_ne _ _ _
    (strHead_ne _ _ 't' 'm' (multer_thumb_head a o) rfl (by decide))

lemma beq_np_video_meta (mfn : String) (b : Nat) (o' : String) :
    (pjoin (pjoin "uploads" mfn) (multerFilename "video" b o') ==
      pjoin (pjoin "uploads" mfn) "metadata.json") = false :=
  pjoin_beq_false_of_ne _ _ _
    (strHead_ne _ _ 'v' 'm' (multer_video_head b o') rfl (by decide))

lemma beq_mfp_temp (tsF : Nat) (title : String) :
    (pjoin "uploads" (createMovieFolderName tsF title) == tempDirPath) = false := by
  obtain ⟨c, hc, hdig⟩ := mfn_head_digit tsF title
  exact pjoin_beq_false_of_ne _ _ _
    (strHead_ne _ _ c 't' hc rfl (by
      intro he
      rw [he] at hdig
      exact absurd hdig (by decide)))

lemma beq_tempfile_itemfile (x y : String) (tsF : Nat) (title : String) :
    (pjoin tempDirPath x ==
      pjoin (pjoin "uploads" (createMovieFolderName tsF title)) y) = false := by
  obtain ⟨c, l, hc, hdig⟩ := repr_head_digit tsF
  rw [beq_eq_false_iff_ne]
  intro he
  have hd := congrArg (fun z => ((String.data z).drop 8).head?) he
  have h1 : (((pjoin tempDirPath x).data).drop 8).head? = some 't' := rfl
  have h2 : (((pjoin (pjoin "uploads" (createMovieFolderName tsF title)) y).data).drop
      8).head? = some c := by
    simp only [pjoin_data, createMovieFolderName, String.data_append, strTake]
    rw [hc]
    rfl
  simp only [h1, h2] at hd
  have hce := (Option.some.injEq _ _).mp hd
  rw [← hce] at hdig
  exact absurd hdig (by decide)

lemma beq_itemfile_tempfile (x y : String) (tsF : Nat) (title : String) :
    (pjoin (pjoin "uploads" (createMovieFolderName tsF title)) y ==
      pjoin tempDirPath x) = false := by
  have h := beq_tempfile_itemfile x y tsF title
  rw [beq_eq_false_iff_ne] at h ⊢
  exact h.symm

lemma ne_tp_vp (a b : Nat) (o o' : String) :
    pjoin tempDirPath (multerFilename "thumbnail" a o) ≠
      pjoin tempDirPath (multerFilename "video" b o') :=
  beq_eq_false_iff_ne.mp (beq_tp_vp a b o o')

lemma ne_vp_tp (a b : Nat) (o o' : String) :
    pjoin tempDirPath (multerFilename "video" b o') ≠
      pjoin tempDirPath (multerFilename "thumbnail" a o) :=
  beq_eq_false_iff_ne.mp (beq_vp_tp a b o o')

lemma ne_np_thumb_video (mfn : String) (a b : Nat) (o o' : String) :
    pjoin (pjoin "uploads" mfn) (multerFilename "thumbnail" a o) ≠
      pjoin (pjoin "uploads" mfn) (multerFilename "video" b o') :=
  beq_eq_false_iff_ne.mp (beq_np_thumb_video mfn a b o o')

lemma ne_np_video_thumb (mfn : String) (a b : Nat) (o o' : String) :
    pjoin (pjoin "uploads" mfn) (multerFilename "video" b o') ≠
      pjoin (pjoin "uploads" mfn) (multerFilename "thumbnail" a o) :=
  (ne_np_thumb_video mfn a b o o').symm

lemma ne_np_thumb_meta (mfn : String) (a : Nat) (o : String) :
    pjoin (pjoin "uploads" mfn) (multerFilename "thumbnail" a o) ≠
      pjoin (pjoin "uploads" mfn) "metadata.json" :=
  beq_eq_false_iff_ne.mp (beq_np_thumb_meta mfn a o)

lemma ne_np_video_meta (mfn : String) (b : Nat) (o' : String) :
    pjoin (pjoin "uploads" mfn) (multerFilename "video" b o') ≠
      pjoin (pjoin "uploads" mfn) "metadata.json" :=
  beq_eq_false_iff_ne.mp (beq_np_video_meta mfn b o')

lemma ne_mfp_temp (tsF : Nat) (title : String) :
    pjoin "uploads" (createMovieFolderName tsF title) ≠ tempDirPath :=
  beq_eq_false_iff_ne.mp (beq_mfp_temp tsF title)

lemma ne_temp_mfp (tsF : Nat) (title : String) :
    tempDirPath ≠ pjoin "uploads" (createMovieFolderName tsF title) :=
  (ne_mfp_temp tsF title).symm

lemma ne_tempfile_itemfile (x y : String) (tsF : Nat) (title : String) :
    pjoin tempDirPath x ≠
      pjoin (pjoin "uploads" (createMovieFolderName tsF title)) y :=
  beq_eq_false_iff_ne.mp (beq_tempfile_itemfile x y tsF title)

lemma ne_itemfile_tempfile (x y : String) (tsF : Nat) (title : String) :
    pjoin (pjoin "uploads" (createMovieFolderName tsF title)) y ≠
      pjoin tempDirPath x :=
  beq_eq_false_iff_ne.mp (beq_itemfile_tempfile x y tsF title)

/-- C7: submitting both an uploaded thumbnail and an uploaded video (over
a fresh uploads tree) stores each file under
`{slot}-{timestamp}-{sanitized-basename}{ext}` inside the item directory,
removes the staged temp copies (move, not copy), and reports
`/uploads/{dir}/{filename}` references; the final state is pinned down
exactly. -/
theorem C7_file_move_and_reference (cat : CatalogStore)
    (title description tu vu oT cT oV cV : String) (tsT tsV tsF tsI : Nat)
    (date : String) (hT : title ≠ "") (hD : description ≠ "") :
    submit ⟨⟨[], []⟩, cat⟩ title description tu vu (some ⟨oT, cT⟩) (some ⟨oV, cV⟩)
        tsT tsV tsF tsI date =
      (⟨⟨[tempDirPath, pjoin "uploads" (createMovieFolderName tsF title)],
          [(pjoin (pjoin "uploads" (createMovieFolderName tsF title))
              (multerFilename "thumbnail" tsT oT), FileContent.text cT),
            (pjoin (pjoin "uploads" (createMovieFolderName tsF title))
              (multerFilename "video" tsV oV), FileContent.text cV),
            (pjoin (pjoin "uploads" (createMovieFolderName tsF title)) "metadata.json",
              FileContent.meta
                ⟨Nat.repr tsI, title, description, date,
                  (("/uploads/" ++ createMovieFolderName tsF title) ++ "/") ++
                    multerFilename "thumbnail" tsT oT,
                  (("/uploads/" ++ createMovieFolderName tsF title) ++ "/") ++
                    multerFilename "video" tsV oV⟩)]⟩,
        CatalogStore.valid (readAllUpload cat ++
          [⟨Nat.repr tsI, title, description, createMovieFolderName tsF title,
            (("/uploads/" ++ createMovieFolderName tsF title) ++ "/") ++
              multerFilename "thumbnail" tsT oT,
            (("/uploads/" ++ createMovieFolderName tsF title) ++ "/") ++
              multerFilename "video" tsV oV, date⟩])⟩,
      HttpResult.ok
        ⟨Nat.repr tsI, title, description, createMovieFolderName tsF title,
          (("/uploads/" ++ createMovieFolderName tsF title) ++ "/") ++
            multerFilename "thumbnail" tsT oT,
          (("/uploads/" ++ createMovieFolderName tsF title) ++ "/") ++
            multerFilename "video" tsV oV, date⟩
        (createMovieFolderName tsF title)) := by
  have hcond : (title == "" || description == "") = false := by simp [hT, hD]
  simp [submit, stageFile, handleUpload, resolveSlot, FS.writeFile, FS.rename,
    FS.mkdir, FS.existsDir, hcond,
    beq_tp_vp, beq_vp_tp, beq_np_thumb_video, beq_np_thumb_meta, beq_np_video_meta,
    beq_mfp_temp, beq_tempfile_itemfile, beq_itemfile_tempfile,
    ne_tp_vp, ne_vp_tp, ne_np_thumb_video, ne_np_video_thumb, ne_np_thumb_meta,
    ne_np_video_meta, ne_mfp_temp, ne_temp_mfp, ne_tempfile_itemfile,
    ne_itemfile_tempfile]

/-- Witness for C7 at a concrete input. -/
theorem C7_witness :
    submit ⟨⟨[], []⟩, CatalogStore.valid []⟩ "A" "B" "x" "y" (some ⟨"p.png", "IMG"⟩)
        (some ⟨"m.mp4", "VID"⟩) 1 2 3 4 "D" =
      (⟨⟨[tempDirPath, pjoin "uploads" (createMovieFolderName 3 "A")],
          [(pjoin (pjoin "uploads" (createMovieFolderName 3 "A"))
              (multerFilename "thumbnail" 1 "p.png"), FileContent.text "IMG"),
            (pjoin (pjoin "uploads" (createMovieFolderName 3 "A"))
              (multerFilename "video" 2 "m.mp4"), FileContent.text "VID"),
            (pjoin (pjoin "uploads" (createMovieFolderName 3 "A")) "metadata.json",
              FileContent.meta
                ⟨Nat.repr 4, "A", "B", "D",
                  (("/uploads/" ++ createMovieFolderName 3 "A") ++ "/") ++
                    multerFilename "thumbnail" 1 "p.png",
                  (("/uploads/" ++ createMovieFolderName 3 "A") ++ "/") ++
                    multerFilename "video" 2 "m.mp4"⟩)]⟩,
        CatalogStore.valid (readAllUpload (CatalogStore.valid []) ++
          [⟨Nat.repr 4, "A", "B", createMovieFolderName 3 "A",
            (("/uploads/" ++ createMovieFolderName 3 "A") ++ "/") ++
              multerFilename "thumbnail" 1 "p.png",
            (("/uploads/" ++ createMovieFolderName 3 "A") ++ "/") ++
              multerFilename "video" 2 "m.mp4", "D"⟩])⟩,
      HttpResult.ok
        ⟨Nat.repr 4, "A", "B", createMovieFolderName 3 "A",
          (("/uploads/" ++ createMovieFolderName 3 "A") ++ "/") ++
            multerFilename "thumbnail" 1 "p.png",
          (("/uploads/" ++ createMovieFolderName 3 "A") ++ "/") ++
            multerFilename "video" 2 "m.mp4", "D"⟩
        (createMovieFolderName 3 "A")) :=
  C7_file_move_and_reference (CatalogStore.valid []) "A" "B" "x" "y" "p.png" "IMG"
    "m.mp4" "VID" 1 2 3 4 "D" (by decide) (by decide)

example :
    (submit ⟨⟨[], []⟩, CatalogStore.valid []⟩ "A" "B" "x" "y" (some ⟨"p.png", "IMG"⟩)
        (some ⟨"m.mp4", "VID"⟩) 1 2 3 4 "D").2 =
      HttpResult.ok
        ⟨"4", "A", "B", "3-A", "/uploads/3-A/thumbnail-1-p.png",
          "/uploads/3-A/video-2-m.mp4", "D"⟩ "3-A" := by decide
